import Mathlib

/-
Verification development for examples/simple_player.py of the RAOP player
repository.  The script schedules a playback start against a shared NTP-style
clock, feeds audio chunks to a transport client under backpressure, emits
periodic status lines and keepalives, and handles interactive key commands.

The time-unit converters (MS2NTP, NTP2MS, TS2NTP, TS2MS, MS2TS) and the
constant MAX_SAMPLES_PER_CHUNK live in the native libraop library, whose
sources are not part of the embedded Python sources; they are modelled from
the specification (shared time is 64-bit fixed point with 2^32 units per
second; integer arithmetic with truncation toward zero on division).
-/

namespace SimplePlayer

/-- Modelled from the spec: milliseconds to shared (NTP-style) time, whose
scale is 4294967296 units per second; division truncates toward zero.  The
concrete converter lives in the libraop library, absent from the embedded
sources. -/
def MS2NTP (ms : Int) : Int := (ms * 4294967296).tdiv 1000

/-- Modelled from the spec: shared time to milliseconds, truncating toward
zero on division. -/
def NTP2MS (ntp : Int) : Int := (ntp * 1000).tdiv 4294967296

/-- Modelled from the spec: sample ticks at the given sample rate to shared
time, truncating toward zero on division. -/
def TS2NTP (ts rate : Int) : Int := (ts * 4294967296).tdiv rate

/-- Modelled from the spec: sample ticks at the given sample rate to
milliseconds, truncating toward zero on division. -/
def TS2MS (ts rate : Int) : Int := (ts * 1000).tdiv rate

/-- Modelled from the spec: milliseconds to sample ticks at the given sample
rate, truncating toward zero on division. -/
def MS2TS (ms rate : Int) : Int := (ms * rate).tdiv 1000

/-- The local playback state of simple_player.py (the strings PLAYING,
PAUSED, STOPPED). -/
inductive Status where
  | playing
  | paused
  | stopped
deriving DecidableEq

/-- A call issued to the Transport Client (the RaopClient object). -/
inductive TCall where
  | stop
  | flush
  | pause
  | startAt (t : Int)
  | keepalive
deriving DecidableEq

/-- Result of handling one key event: the new local playback state, the
Transport Client calls issued in order, and the process exit code requested
by the handler, if any. -/
structure KeyResult where
  status : Status
  calls : List TCall
  exitCode : Option Nat
deriving DecidableEq

/-- Embedding of handle_key_event of simple_player.py (lines 74-99).  The
argument now is the value get_ntp() returns inside the restart branch;
latency and rate are client.latency and client.sample_rate. -/
def handle_key_event (key : Char) (st : Status) (now latency rate : Int) :
    KeyResult :=
  if key = 's' ∨ key = 'q' then
    { status := Status.stopped, calls := [TCall.stop, TCall.flush],
      exitCode := some 0 }
  else if key = 'p' ∧ st = Status.playing then
    { status := Status.paused, calls := [TCall.pause, TCall.flush],
      exitCode := none }
  else if key = 'r' then
    { status := Status.playing,
      calls := [TCall.startAt (now + MS2NTP 200 - TS2NTP latency rate)],
      exitCode := none }
  else
    { status := st, calls := [], exitCode := none }

/-- The scheduled start computed at lines 142-148 of simple_player.py:
in Python, start or now evaluates to now exactly when start is zero. -/
def scheduler_start_at (start now wait latency rate : Int) : Int :=
  (if start = 0 then now else start) + MS2NTP wait - TS2NTP latency rate

/-- Written from the words of the spec, section 4.2: base defaults to now
when absent; the result is base + to-shared-time(wait) minus the negotiated
latency ticks converted to shared time. -/
def compute_start_spec (base : Option Int) (now wait latency rate : Int) :
    Int :=
  base.getD now + MS2NTP wait - TS2NTP latency rate

/-- Process-level actions of the startup path of simple_player.py. -/
inductive MainAction where
  | writeNtpFile (content : String)
  | exitWith (code : Nat)
  | connectCall
  | printConnectError
  | startAtCall (t : Int)
  | enterLoop
deriving DecidableEq

/-- Startup sequence of the main block of simple_player.py (lines 102-161):
NTP-dump mode writes str(get_ntp()) to the named file and exits 0 before any
connect; a failed connect prints a message and exits 1 without entering the
streaming loop; otherwise an optional scheduled start (when start or wait is
nonzero) precedes entering the loop.  ntpNow is get_ntp() at dump time,
schedNow is get_ntp() at line 143, latency is client.latency after
connecting. -/
def mainStartup (ntpFile : Option String) (ntpNow : Int) (connectOk : Bool)
    (start wait schedNow latency rate : Int) : List MainAction :=
  match ntpFile with
  | some _ => [MainAction.writeNtpFile (toString ntpNow), MainAction.exitWith 0]
  | none =>
    MainAction.connectCall ::
      (if connectOk then
        (if start ≠ 0 ∨ wait ≠ 0 then
          [MainAction.startAtCall
            (scheduler_start_at start schedNow wait latency rate)]
        else []) ++ [MainAction.enterLoop]
      else [MainAction.printConnectError, MainAction.exitWith 1])

/-- Per-iteration inputs of the streaming loop that come from outside the
loop variables: the clock reading, the local playback state (written
asynchronously by the key listener), and the Transport Client signals. -/
structure Env where
  now : Int
  status : Status
  accept : Bool
  isPlaying : Bool
deriving DecidableEq

/-- The mutable loop variables of the streaming loop of simple_player.py:
last (the status-line gate time), last_keepalive, frames, and the current
read position in the input file. -/
structure LoopState where
  last : Int
  lastKeepalive : Int
  frames : Int
  pos : Nat
deriving DecidableEq

/-- Per-run constants of the streaming loop: the negotiated latency in
sample ticks, the sample rate, the session start time, the input file size
in bytes, and the library constant MAX_SAMPLES_PER_CHUNK. -/
structure LoopParams where
  latency : Int
  rate : Int
  startNtp : Int
  fileSize : Nat
  maxSamples : Nat
deriving DecidableEq

/-- Observable output of one loop iteration: whether the one-second status
gate fired, the played-milliseconds value of the printed status line when
one is printed, whether the thirty-second keepalive gate fired, the
played-milliseconds value of the keepalive line when one is printed, whether
client.keepalive() was called, and whether and how many bytes were sent. -/
structure IterOut where
  statusFired : Bool
  statusPlayedMs : Option Int
  keepaliveFired : Bool
  keepalivePlayedMs : Option Int
  keepaliveCalled : Bool
  chunkSent : Bool
  bytesSent : Nat
deriving DecidableEq

/-- One iteration of the while-loop body of simple_player.py (lines
161-183): the one-second status branch (strict comparison against
MS2NTP(1000), print only when frames is nonzero and exceeds latency), the
thirty-second keepalive branch (print unconditionally, reset the gate, call
keepalive), and the chunk transfer (only when the local state is PLAYING,
accept_frames() holds, and the read returns data; the read returns at most
MAX_SAMPLES_PER_CHUNK*4 bytes and frames advances by the byte count divided
by four). -/
def loopStep (p : LoopParams) (e : Env) (s : LoopState) :
    LoopState × IterOut :=
  let now := e.now
  let statusFired : Prop := now - s.last > MS2NTP 1000
  let last1 := if statusFired then now else s.last
  let statusPrint : Prop := statusFired ∧ s.frames ≠ 0 ∧ s.frames > p.latency
  let statusPlayedMs :=
    if statusPrint then some (TS2MS (s.frames - p.latency) p.rate) else none
  let kaFired : Prop := NTP2MS (now - s.lastKeepalive) ≥ 30000
  let keepalivePlayedMs :=
    if kaFired then some (TS2MS (s.frames - p.latency) p.rate) else none
  let lastKeepalive1 := if kaFired then now else s.lastKeepalive
  let chunkLen := min (p.maxSamples * 4) (p.fileSize - s.pos)
  let sendCond : Prop := e.status = Status.playing ∧ e.accept = true ∧ chunkLen ≠ 0
  let bytesSent := if sendCond then chunkLen else 0
  ( { last := last1,
      lastKeepalive := lastKeepalive1,
      frames := s.frames + ((bytesSent / 4 : Nat) : Int),
      pos := s.pos + bytesSent },
    { statusFired := decide statusFired,
      statusPlayedMs := statusPlayedMs,
      keepaliveFired := decide kaFired,
      keepalivePlayedMs := keepalivePlayedMs,
      keepaliveCalled := decide kaFired,
      chunkSent := decide sendCond,
      bytesSent := bytesSent } )

/-- The while-loop of simple_player.py: one body iteration per environment
sample; mirroring iterate = client.is_playing at the end of the body, the
loop stops after the first iteration whose is_playing is false. -/
def runLoop (p : LoopParams) : List Env → LoopState → LoopState × List IterOut
  | [], s => (s, [])
  | e :: es, s =>
    let r := loopStep p e s
    if e.isPlaying then
      let rest := runLoop p es r.1
      (rest.1, r.2 :: rest.2)
    else (r.1, [r.2])

/-- Total bytes sent over a list of iteration outputs. -/
def sentBytes (outs : List IterOut) : Nat :=
  (outs.map IterOut.bytesSent).sum

/-- Bytes summed only over the iterations whose chunk condition held. -/
def sentBytesOnSent (outs : List IterOut) : Nat :=
  ((outs.filter IterOut.chunkSent).map IterOut.bytesSent).sum

/-- Number of iterations that sent a chunk. -/
def sentChunks (outs : List IterOut) : Nat :=
  (outs.filter IterOut.chunkSent).length

/-- Parameters of the 200 ms scenario: 44100 Hz, 4-byte frames, an input of
8820 * 4 bytes, and 352 samples per chunk. -/
def scenarioParams : LoopParams :=
  { latency := 44100, rate := 44100, startNtp := 7, fileSize := 8820 * 4,
    maxSamples := 352 }

/-- Scenario environment sample with the liveness flag still true. -/
def scenarioEnvPlay : Env :=
  { now := 7, status := Status.playing, accept := true, isPlaying := true }

/-- Scenario environment sample whose liveness flag is false. -/
def scenarioEnvEnd : Env :=
  { now := 7, status := Status.playing, accept := true, isPlaying := false }

/-- Scenario environments: 29 live iterations, then the liveness flag drops. -/
def scenarioEnvs : List Env :=
  List.replicate 29 scenarioEnvPlay ++ [scenarioEnvEnd]

/-- Scenario initial loop state. -/
def scenarioInit : LoopState :=
  { last := 0, lastKeepalive := 7, frames := 0, pos := 0 }

/-- Loop parameters used by the concrete status-gate inputs. -/
def c4Params : LoopParams :=
  { latency := 44100, rate := 44100, startNtp := 0, fileSize := 0,
    maxSamples := 352 }

/-- Loop state whose status gate saw its last update at shared time 0. -/
def c4State : LoopState :=
  { last := 0, lastKeepalive := 4294967296, frames := 0, pos := 0 }

/-- Environment reading the clock exactly 1000 ms after the last status
update. -/
def c4Env : Env :=
  { now := 4294967296, status := Status.paused, accept := false,
    isPlaying := true }

/-- Loop state two seconds past the last status update with frames well
above the latency. -/
def c4wState : LoopState :=
  { last := 0, lastKeepalive := 8589934592, frames := 88200, pos := 0 }

/-- Environment at shared time 8589934592, two seconds in. -/
def c4wEnv : Env :=
  { now := 8589934592, status := Status.playing, accept := false,
    isPlaying := true }

/-- Loop parameters used by the concrete keepalive inputs. -/
def c5Params : LoopParams :=
  { latency := 44100, rate := 44100, startNtp := 0, fileSize := 0,
    maxSamples := 352 }

/-- Environment exactly 30000 ms after keepalive time 0. -/
def c5Env : Env :=
  { now := 128849018880, status := Status.paused, accept := false,
    isPlaying := true }

/-- Environment another 30000 ms later. -/
def c5Env2 : Env :=
  { now := 257698037760, status := Status.paused, accept := false,
    isPlaying := true }

/-- Loop state with the keepalive gate last reset at shared time 0. -/
def c5State : LoopState :=
  { last := 128849018880, lastKeepalive := 0, frames := 88200, pos := 0 }

/-- Loop parameters used by the concrete keepalive-line inputs. -/
def c10Params : LoopParams :=
  { latency := 44100, rate := 44100, startNtp := 0, fileSize := 0,
    maxSamples := 352 }

/-- Loop state one frame short of the 44100-tick latency. -/
def c10State : LoopState :=
  { last := 128849018880, lastKeepalive := 0, frames := 44099, pos := 0 }

/-- Environment firing the keepalive gate at 30000 ms. -/
def c10Env : Env :=
  { now := 128849018880, status := Status.paused, accept := false,
    isPlaying := true }

/-- Loop state with no frames transferred at all. -/
def c10wState : LoopState :=
  { last := 128849018880, lastKeepalive := 0, frames := 0, pos := 0 }

theorem tdiv_pos_of_le {k r : Int} (hr : 0 < r) (hk : r ≤ k) : 0 < k.tdiv r := by
  have h0 : 0 ≤ k := le_trans (le_of_lt hr) hk
  obtain ⟨a, rfl⟩ := Int.eq_ofNat_of_zero_le h0
  obtain ⟨b, rfl⟩ := Int.eq_ofNat_of_zero_le (le_of_lt hr)
  show (0 : Int) < Int.ofNat (a / b)
  have hb : 0 < b := by exact_mod_cast hr
  have hab : b ≤ a := by exact_mod_cast hk
  exact Int.ofNat_pos.mpr (Nat.div_pos hab hb)

theorem TS2MS_nonneg (ts rate : Int) (hts : 0 ≤ ts) (hr : 0 ≤ rate) :
    0 ≤ TS2MS ts rate :=
  Int.tdiv_nonneg (mul_nonneg hts (by norm_num)) hr

theorem TS2MS_nonpos (ts rate : Int) (hts : ts ≤ 0) (hr : 0 ≤ rate) :
    TS2MS ts rate ≤ 0 := by
  have h1 : ts * 1000 = -(-ts * 1000) := by ring
  have h2 : 0 ≤ -ts * 1000 := mul_nonneg (neg_nonneg.mpr hts) (by norm_num)
  unfold TS2MS
  rw [h1, Int.neg_tdiv]
  exact neg_nonpos.mpr (Int.tdiv_nonneg h2 hr)

theorem TS2MS_neg (ts rate : Int) (hr : 0 < rate) (h : rate ≤ -ts * 1000) :
    TS2MS ts rate < 0 := by
  have h1 : ts * 1000 = -(-ts * 1000) := by ring
  unfold TS2MS
  rw [h1, Int.neg_tdiv]
  have := tdiv_pos_of_le hr h
  linarith

theorem loopStep_statusFired_iff (p : LoopParams) (e : Env) (s : LoopState) :
    (loopStep p e s).2.statusFired = true ↔ e.now - s.last > MS2NTP 1000 := by
  simp [loopStep]

theorem loopStep_last_eq (p : LoopParams) (e : Env) (s : LoopState) :
    (loopStep p e s).1.last
      = if e.now - s.last > MS2NTP 1000 then e.now else s.last := rfl

theorem loopStep_statusPlayedMs_eq (p : LoopParams) (e : Env) (s : LoopState) :
    (loopStep p e s).2.statusPlayedMs
      = if (e.now - s.last > MS2NTP 1000) ∧ s.frames ≠ 0 ∧ s.frames > p.latency
        then some (TS2MS (s.frames - p.latency) p.rate) else none := rfl

theorem loopStep_kaFired_iff (p : LoopParams) (e : Env) (s : LoopState) :
    (loopStep p e s).2.keepaliveFired = true
      ↔ NTP2MS (e.now - s.lastKeepalive) ≥ 30000 := by
  simp [loopStep]

theorem loopStep_lastKeepalive_eq (p : LoopParams) (e : Env) (s : LoopState) :
    (loopStep p e s).1.lastKeepalive
      = if NTP2MS (e.now - s.lastKeepalive) ≥ 30000 then e.now
        else s.lastKeepalive := rfl

theorem loopStep_keepalivePlayedMs_eq (p : LoopParams) (e : Env) (s : LoopState) :
    (loopStep p e s).2.keepalivePlayedMs
      = if NTP2MS (e.now - s.lastKeepalive) ≥ 30000
        then some (TS2MS (s.frames - p.latency) p.rate) else none := rfl

theorem loopStep_keepaliveCalled_eq (p : LoopParams) (e : Env) (s : LoopState) :
    (loopStep p e s).2.keepaliveCalled = (loopStep p e s).2.keepaliveFired := rfl

theorem loopStep_chunkSent_eq (p : LoopParams) (e : Env) (s : LoopState) :
    (loopStep p e s).2.chunkSent
      = decide (e.status = Status.playing ∧ e.accept = true
          ∧ min (p.maxSamples * 4) (p.fileSize - s.pos) ≠ 0) := rfl

theorem loopStep_bytesSent_eq (p : LoopParams) (e : Env) (s : LoopState) :
    (loopStep p e s).2.bytesSent
      = if (e.status = Status.playing ∧ e.accept = true
            ∧ min (p.maxSamples * 4) (p.fileSize - s.pos) ≠ 0)
        then min (p.maxSamples * 4) (p.fileSize - s.pos) else 0 := rfl

theorem loopStep_frames_eq (p : LoopParams) (e : Env) (s : LoopState) :
    (loopStep p e s).1.frames
      = s.frames + (((loopStep p e s).2.bytesSent / 4 : Nat) : Int) := rfl

theorem loopStep_pos_eq (p : LoopParams) (e : Env) (s : LoopState) :
    (loopStep p e s).1.pos = s.pos + (loopStep p e s).2.bytesSent := rfl

theorem loopStep_bytes_zero (p : LoopParams) (e : Env) (s : LoopState)
    (h : (loopStep p e s).2.chunkSent = false) :
    (loopStep p e s).2.bytesSent = 0 := by
  rw [loopStep_chunkSent_eq, decide_eq_false_iff_not] at h
  rw [loopStep_bytesSent_eq, if_neg h]

theorem runLoop_length (p : LoopParams) (envs : List Env) :
    ∀ s : LoopState, ((runLoop p envs s).2).length
      = min envs.length ((envs.takeWhile fun e => e.isPlaying).length + 1) := by
  induction envs with
  | nil => intro s; simp [runLoop]
  | cons e es ih =>
    intro s
    by_cases he : e.isPlaying = true
    · simp [runLoop, he, ih]
      omega
    · simp [runLoop, he]

theorem runLoop_out_sound (p : LoopParams) (envs : List Env) :
    ∀ (s : LoopState) (o : IterOut), o ∈ (runLoop p envs s).2 →
      ∃ e s2, o = (loopStep p e s2).2 := by
  induction envs with
  | nil => intro s o ho; simp [runLoop] at ho
  | cons e es ih =>
    intro s o ho
    by_cases he : e.isPlaying = true
    · simp only [runLoop, he, if_true, List.mem_cons] at ho
      rcases ho with ho | ho
      · exact ⟨e, s, ho⟩
      · exact ih _ o ho
    · simp [runLoop, he] at ho
      exact ⟨e, s, ho⟩

theorem sentBytes_filter (outs : List IterOut)
    (h : ∀ o ∈ outs, o.chunkSent = false → o.bytesSent = 0) :
    sentBytes outs = sentBytesOnSent outs := by
  induction outs with
  | nil => rfl
  | cons o l ih =>
    have ho := h o (List.mem_cons_self o l)
    have hl : ∀ o2 ∈ l, o2.chunkSent = false → o2.bytesSent = 0 :=
      fun o2 ho2 => h o2 (List.mem_cons_of_mem o ho2)
    cases hc : o.chunkSent with
    | true =>
      simp [sentBytes, sentBytesOnSent, List.filter_cons, hc] at ih ⊢
      exact ih hl
    | false =>
      simp [sentBytes, sentBytesOnSent, List.filter_cons, hc, ho hc] at ih ⊢
      exact ih hl

theorem loopStep_chunkSent_iff (p : LoopParams) (e : Env) (s : LoopState)
    (hmax : 0 < p.maxSamples) :
    (loopStep p e s).2.chunkSent = true
      ↔ (e.status = Status.playing ∧ e.accept = true ∧ s.pos < p.fileSize) := by
  rw [loopStep_chunkSent_eq, decide_eq_true_iff]
  constructor
  · rintro ⟨h1, h2, h3⟩
    exact ⟨h1, h2, by omega⟩
  · rintro ⟨h1, h2, h3⟩
    exact ⟨h1, h2, by omega⟩

/-- Claim C1: when an absolute start or a nonzero wait is supplied, the
scheduled value passed to start_at equals the spec formula
base + to-shared(wait) - to-shared(latency ticks), where base defaults to
now exactly when the supplied start value is zero; the startup trace indeed
contains that start_at call. -/
theorem claim1_scheduled_start (start wait schedNow latency rate : Int)
    (h : start ≠ 0 ∨ wait ≠ 0) :
    scheduler_start_at start schedNow wait latency rate
      = compute_start_spec (if start = 0 then none else some start)
          schedNow wait latency rate
    ∧ MainAction.startAtCall
        (compute_start_spec (if start = 0 then none else some start)
          schedNow wait latency rate)
        ∈ mainStartup none 0 true start wait schedNow latency rate := by
  have hv : scheduler_start_at start schedNow wait latency rate
      = compute_start_spec (if start = 0 then none else some start)
          schedNow wait latency rate := by
    by_cases h0 : start = 0 <;>
      simp [scheduler_start_at, compute_start_spec, h0]
  refine ⟨hv, ?_⟩
  rw [← hv]
  simp [mainStartup, h]

/-- Witness for claim C1 at start value 0 and wait 5 ms. -/
theorem claim1_scheduled_start_witness :
    scheduler_start_at 0 100 5 44100 44100
      = compute_start_spec (if (0 : Int) = 0 then none else some 0)
          100 5 44100 44100
    ∧ MainAction.startAtCall
        (compute_start_spec (if (0 : Int) = 0 then none else some 0)
          100 5 44100 44100)
        ∈ mainStartup none 0 true 0 5 100 44100 44100 :=
  claim1_scheduled_start 0 5 100 44100 44100 (Or.inr (by decide))

/-- Claim C2: a chunk is sent exactly when the local state is PLAYING, the
client accepts frames, and the source has remaining bytes; the bytes read
are at most MAX_SAMPLES_PER_CHUNK*4, a multiple of the 4 bytes per frame;
frames advances by the byte count divided by 4; and the total bytes sent
over a run equal the sum of the chunk sizes over exactly the iterations
whose send condition held. -/
theorem claim2_chunk_transfer (p : LoopParams) (e : Env) (s : LoopState)
    (envs : List Env) (s0 : LoopState) (hmax : 0 < p.maxSamples) :
    ((loopStep p e s).2.chunkSent = true
      ↔ (e.status = Status.playing ∧ e.accept = true ∧ s.pos < p.fileSize))
    ∧ (loopStep p e s).2.bytesSent ≤ p.maxSamples * 4
    ∧ 4 ∣ p.maxSamples * 4
    ∧ (loopStep p e s).1.frames
        = s.frames + (((loopStep p e s).2.bytesSent / 4 : Nat) : Int)
    ∧ (loopStep p e s).1.pos = s.pos + (loopStep p e s).2.bytesSent
    ∧ sentBytes (runLoop p envs s0).2 = sentBytesOnSent (runLoop p envs s0).2 := by
  refine ⟨loopStep_chunkSent_iff p e s hmax, ?_, ⟨p.maxSamples, by ring⟩,
    loopStep_frames_eq p e s, loopStep_pos_eq p e s, ?_⟩
  · rw [loopStep_bytesSent_eq]
    split
    · exact min_le_left _ _
    · exact Nat.zero_le _
  · refine sentBytes_filter _ ?_
    intro o ho hc
    obtain ⟨e2, s2, rfl⟩ := runLoop_out_sound p envs s0 o ho
    exact loopStep_bytes_zero p e2 s2 hc

/-- Witness for claim C2 on a playing, accepting iteration over an 8-byte
source. -/
theorem claim2_chunk_transfer_witness :
    ((loopStep ⟨44100, 44100, 0, 8, 352⟩
        ⟨0, Status.playing, true, true⟩ ⟨0, 0, 0, 0⟩).2.chunkSent = true
      ↔ (Status.playing = Status.playing ∧ true = true ∧ 0 < 8))
    ∧ (loopStep ⟨44100, 44100, 0, 8, 352⟩
        ⟨0, Status.playing, true, true⟩ ⟨0, 0, 0, 0⟩).2.bytesSent ≤ 352 * 4
    ∧ 4 ∣ 352 * 4
    ∧ (loopStep ⟨44100, 44100, 0, 8, 352⟩
        ⟨0, Status.playing, true, true⟩ ⟨0, 0, 0, 0⟩).1.frames
        = 0 + (((loopStep ⟨44100, 44100, 0, 8, 352⟩
            ⟨0, Status.playing, true, true⟩ ⟨0, 0, 0, 0⟩).2.bytesSent / 4 : Nat) : Int)
    ∧ (loopStep ⟨44100, 44100, 0, 8, 352⟩
        ⟨0, Status.playing, true, true⟩ ⟨0, 0, 0, 0⟩).1.pos
        = 0 + (loopStep ⟨44100, 44100, 0, 8, 352⟩
            ⟨0, Status.playing, true, true⟩ ⟨0, 0, 0, 0⟩).2.bytesSent
    ∧ sentBytes (runLoop ⟨44100, 44100, 0, 8, 352⟩ [] ⟨0, 0, 0, 0⟩).2
        = sentBytesOnSent (runLoop ⟨44100, 44100, 0, 8, 352⟩ [] ⟨0, 0, 0, 0⟩).2 :=
  claim2_chunk_transfer ⟨44100, 44100, 0, 8, 352⟩
    ⟨0, Status.playing, true, true⟩ ⟨0, 0, 0, 0⟩ [] ⟨0, 0, 0, 0⟩ (by decide)

/-- Claim C3: the loop runs one iteration per clock sample and stops exactly
after the first iteration whose is_playing flag is false, whatever the local
state and the file position do (first conjunct, over all environments); the
status and keepalive gates are evaluated from the clock alone, unchanged by
a paused state or a drained source (second conjunct); and on the 200 ms
scenario (8820 frames of 4 bytes at 44100 Hz) the loop sends 26 chunks,
the ceiling of the byte count over the chunk size, reaches 8820 frames,
keeps iterating after the source is drained, and exits only at the
iteration whose liveness flag is false (last conjuncts). -/
theorem claim3_exit_only_on_liveness :
    (∀ (p : LoopParams) (envs : List Env) (s : LoopState),
      ((runLoop p envs s).2).length
        = min envs.length ((envs.takeWhile fun e => e.isPlaying).length + 1))
    ∧ (∀ (p : LoopParams) (e e2 : Env) (s : LoopState), e2.now = e.now →
        (loopStep p e s).2.statusFired = (loopStep p e2 s).2.statusFired
        ∧ (loopStep p e s).2.keepaliveFired = (loopStep p e2 s).2.keepaliveFired)
    ∧ ((runLoop scenarioParams scenarioEnvs scenarioInit).2.length = 30
    ∧ (runLoop scenarioParams scenarioEnvs scenarioInit).1.frames = 8820
    ∧ sentChunks (runLoop scenarioParams scenarioEnvs scenarioInit).2
        = (scenarioParams.fileSize + scenarioParams.maxSamples * 4 - 1)
            / (scenarioParams.maxSamples * 4)) := by
  refine ⟨runLoop_length, ?_, by decide, by decide, by decide⟩
  intro p e e2 s hnow
  simp [loopStep, hnow]

/-- Witness for claim C3: the gates evaluate identically on the live and the
final scenario environment, which share the clock reading. -/
theorem claim3_exit_only_on_liveness_witness :
    (loopStep scenarioParams scenarioEnvPlay scenarioInit).2.statusFired
      = (loopStep scenarioParams scenarioEnvEnd scenarioInit).2.statusFired :=
  (claim3_exit_only_on_liveness.2.1 scenarioParams scenarioEnvPlay
    scenarioEnvEnd scenarioInit rfl).1

/-- Claim C4 counterexample: with now - last equal to exactly 1000 ms of
shared time (2^32 units), the condition now - last at least 1000 ms holds
both read in shared time and read after millisecond conversion, yet the
status branch does not fire, because line 165 tests the strict inequality
now - last > MS2NTP(1000). -/
theorem claim4_counterexample :
    NTP2MS (c4Env.now - c4State.last) ≥ 1000
    ∧ c4Env.now - c4State.last ≥ MS2NTP 1000
    ∧ (loopStep c4Params c4Env c4State).2.statusFired = false := by decide

/-- Claim C4, amended: the status branch fires exactly when
now - last_status_time is strictly greater than 1000 ms of shared time;
when it fires, last_status_time becomes now even if nothing is printed;
the status line is printed only when the branch fires and
frames_transferred exceeds the negotiated latency; a printed played
duration is never negative; and two consecutive firings are strictly more
than 1000 ms of clock progress apart. -/
theorem claim4_status_gate (p : LoopParams) (e : Env) (s : LoopState)
    (hr : 0 < p.rate) :
    ((loopStep p e s).2.statusFired = true ↔ e.now - s.last > MS2NTP 1000)
    ∧ ((loopStep p e s).2.statusFired = true → (loopStep p e s).1.last = e.now)
    ∧ ((loopStep p e s).2.statusFired = false → (loopStep p e s).1.last = s.last)
    ∧ (∀ v, (loopStep p e s).2.statusPlayedMs = some v →
        (loopStep p e s).2.statusFired = true ∧ s.frames > p.latency ∧ 0 ≤ v)
    ∧ (∀ e2 : Env, (loopStep p e s).2.statusFired = true →
        (loopStep p e2 (loopStep p e s).1).2.statusFired = true →
        e2.now - e.now > MS2NTP 1000) := by
  refine ⟨loopStep_statusFired_iff p e s, ?_, ?_, ?_, ?_⟩
  · intro h
    rw [loopStep_statusFired_iff] at h
    rw [loopStep_last_eq, if_pos h]
  · intro h
    rw [Bool.eq_false_iff, Ne, loopStep_statusFired_iff] at h
    rw [loopStep_last_eq, if_neg h]
  · intro v hv
    rw [loopStep_statusPlayedMs_eq] at hv
    by_cases hp : (e.now - s.last > MS2NTP 1000) ∧ s.frames ≠ 0 ∧ s.frames > p.latency
    · rw [if_pos hp] at hv
      injection hv with hv
      refine ⟨(loopStep_statusFired_iff p e s).mpr hp.1, hp.2.2, ?_⟩
      rw [← hv]
      exact TS2MS_nonneg _ _ (by omega) (le_of_lt hr)
    · rw [if_neg hp] at hv
      exact absurd hv (by simp)
  · intro e2 h1 h2
    have hl : (loopStep p e s).1.last = e.now := by
      rw [loopStep_statusFired_iff] at h1
      rw [loopStep_last_eq, if_pos h1]
    rw [loopStep_statusFired_iff, hl] at h2
    exact h2

/-- Witness for claim C4 at a clock reading two seconds past the last
status update, with frames above the latency. -/
theorem claim4_status_gate_witness :
    ((loopStep c4Params c4wEnv c4wState).2.statusFired = true
      ↔ c4wEnv.now - c4wState.last > MS2NTP 1000)
    ∧ ((loopStep c4Params c4wEnv c4wState).2.statusFired = true
        → (loopStep c4Params c4wEnv c4wState).1.last = c4wEnv.now)
    ∧ ((loopStep c4Params c4wEnv c4wState).2.statusFired = false
        → (loopStep c4Params c4wEnv c4wState).1.last = c4wState.last)
    ∧ (∀ v, (loopStep c4Params c4wEnv c4wState).2.statusPlayedMs = some v →
        (loopStep c4Params c4wEnv c4wState).2.statusFired = true
        ∧ c4wState.frames > c4Params.latency ∧ 0 ≤ v)
    ∧ (∀ e2 : Env, (loopStep c4Params c4wEnv c4wState).2.statusFired = true →
        (loopStep c4Params e2 (loopStep c4Params c4wEnv c4wState).1).2.statusFired = true →
        e2.now - c4wEnv.now > MS2NTP 1000) :=
  claim4_status_gate c4Params c4wEnv c4wState (by decide)

/-- Claim C5: the keepalive primitive is called exactly when the gate
NTP2MS(now - last_keepalive) >= 30000 holds, at which iteration a status
line is printed and last_keepalive resets to that now; otherwise both the
gate time and the call are untouched; consequently the clock progress
between one keepalive and the next converts to at least 30000 ms. -/
theorem claim5_keepalive (p : LoopParams) (e : Env) (s : LoopState) :
    ((loopStep p e s).2.keepaliveFired = true
      ↔ NTP2MS (e.now - s.lastKeepalive) ≥ 30000)
    ∧ (loopStep p e s).2.keepaliveCalled = (loopStep p e s).2.keepaliveFired
    ∧ ((loopStep p e s).2.keepaliveFired = true →
        (loopStep p e s).1.lastKeepalive = e.now
        ∧ ((loopStep p e s).2.keepalivePlayedMs).isSome = true)
    ∧ ((loopStep p e s).2.keepaliveFired = false →
        (loopStep p e s).1.lastKeepalive = s.lastKeepalive
        ∧ (loopStep p e s).2.keepaliveCalled = false)
    ∧ (∀ e2 : Env, (loopStep p e s).2.keepaliveFired = true →
        (loopStep p e2 (loopStep p e s).1).2.keepaliveFired = true →
        NTP2MS (e2.now - e.now) ≥ 30000) := by
  refine ⟨loopStep_kaFired_iff p e s, loopStep_keepaliveCalled_eq p e s,
    ?_, ?_, ?_⟩
  · intro h
    rw [loopStep_kaFired_iff] at h
    constructor
    · rw [loopStep_lastKeepalive_eq, if_pos h]
    · rw [loopStep_keepalivePlayedMs_eq, if_pos h]
      rfl
  · intro h
    have h2 := h
    rw [Bool.eq_false_iff, Ne, loopStep_kaFired_iff] at h
    exact ⟨by rw [loopStep_lastKeepalive_eq, if_neg h],
      by rw [loopStep_keepaliveCalled_eq, h2]⟩
  · intro e2 h1 h2
    have hl : (loopStep p e s).1.lastKeepalive = e.now := by
      rw [loopStep_kaFired_iff] at h1
      rw [loopStep_lastKeepalive_eq, if_pos h1]
    rw [loopStep_kaFired_iff, hl] at h2
    exact h2

/-- Witness for claim C5: a firing iteration resets the gate time, prints,
and the next firing clock reading is at least 30000 ms further. -/
theorem claim5_keepalive_witness :
    (loopStep c5Params c5Env c5State).1.lastKeepalive = c5Env.now
    ∧ ((loopStep c5Params c5Env c5State).2.keepalivePlayedMs).isSome = true
    ∧ NTP2MS (c5Env2.now - c5Env.now) ≥ 30000 := by
  refine ⟨((claim5_keepalive c5Params c5Env c5State).2.2.1 (by decide)).1,
    ((claim5_keepalive c5Params c5Env c5State).2.2.1 (by decide)).2,
    (claim5_keepalive c5Params c5Env c5State).2.2.2.2 c5Env2 (by decide) ?_⟩
  decide

/-- Claim C6: on the pause key, a PLAYING state leads to pause then flush on
the Transport Client and the state becomes PAUSED; in PAUSED or STOPPED the
key is a no-op with no Transport Client call and an unchanged state. -/
theorem claim6_pause_key (now latency rate : Int) :
    handle_key_event 'p' Status.playing now latency rate
      = ⟨Status.paused, [TCall.pause, TCall.flush], none⟩
    ∧ handle_key_event 'p' Status.paused now latency rate
      = ⟨Status.paused, [], none⟩
    ∧ handle_key_event 'p' Status.stopped now latency rate
      = ⟨Status.stopped, [], none⟩ := ⟨rfl, rfl, rfl⟩

/-- Claim C7: from any state, the restart key sets the state to PLAYING and
issues exactly one start_at call scheduled at now + 200 ms in shared time
minus the latency ticks in shared time, with no flush and no exit request. -/
theorem claim7_restart_key (st : Status) (now latency rate : Int) :
    handle_key_event 'r' st now latency rate
      = ⟨Status.playing,
         [TCall.startAt (now + MS2NTP 200 - TS2NTP latency rate)], none⟩
    ∧ TCall.flush ∉ (handle_key_event 'r' st now latency rate).calls := by
  cases st <;> exact ⟨rfl, by simp [handle_key_event]⟩

/-- Claim C8: from any state, the stop and the quit key issue stop then
flush on the Transport Client, set the state to STOPPED, and request
process termination with exit status 0. -/
theorem claim8_stop_quit_key (st : Status) (now latency rate : Int) :
    handle_key_event 's' st now latency rate
      = ⟨Status.stopped, [TCall.stop, TCall.flush], some 0⟩
    ∧ handle_key_event 'q' st now latency rate
      = ⟨Status.stopped, [TCall.stop, TCall.flush], some 0⟩ := ⟨rfl, rfl⟩

/-- Claim C9: in NTP-dump mode the startup trace writes the decimal
rendering of the clock value and exits with status 0, with no connect call;
when connect fails the trace is connect, error message, exit status 1, and
the streaming loop is never entered. -/
theorem claim9_dump_and_connect_failure (f : String) (v : Int)
    (connectOk : Bool) (start wait schedNow latency rate : Int) :
    (mainStartup (some f) v connectOk start wait schedNow latency rate
        = [MainAction.writeNtpFile (toString v), MainAction.exitWith 0]
      ∧ MainAction.connectCall
          ∉ mainStartup (some f) v connectOk start wait schedNow latency rate)
    ∧ (mainStartup none v false start wait schedNow latency rate
        = [MainAction.connectCall, MainAction.printConnectError,
           MainAction.exitWith 1]
      ∧ MainAction.enterLoop
          ∉ mainStartup none v false start wait schedNow latency rate) := by
  refine ⟨⟨rfl, ?_⟩, ⟨rfl, ?_⟩⟩ <;> simp [mainStartup]

/-- Claim C10 counterexample: the keepalive gate fires with
frames_transferred = 44099 one frame short of the 44100-tick latency, and
the printed played value is TS2MS(-1, 44100) = 0, which is not negative:
truncating division sends a shortfall smaller than one millisecond of frames
to zero, so not every execution with frames below latency prints a negative
duration. -/
theorem claim10_counterexample :
    (loopStep c10Params c10Env c10State).2.keepaliveFired = true
    ∧ c10State.frames < c10Params.latency
    ∧ (loopStep c10Params c10Env c10State).2.keepalivePlayedMs = some 0 := by
  decide

/-- Claim C10, amended: whenever the keepalive gate fires the line is
emitted, with no frames-above-latency guard; when frames are below the
latency the printed played value is never positive, and it is strictly
negative whenever the shortfall amounts to at least one millisecond of
samples, that is when (latency - frames) * 1000 is at least the rate. -/
theorem claim10_keepalive_line_unguarded (p : LoopParams) (e : Env)
    (s : LoopState) (hr : 0 < p.rate) :
    ((loopStep p e s).2.keepaliveFired = true →
        ((loopStep p e s).2.keepalivePlayedMs).isSome = true)
    ∧ (∀ v, (loopStep p e s).2.keepalivePlayedMs = some v →
        s.frames < p.latency → v ≤ 0)
    ∧ (∀ v, (loopStep p e s).2.keepalivePlayedMs = some v →
        p.rate ≤ (p.latency - s.frames) * 1000 → v < 0) := by
  refine ⟨?_, ?_, ?_⟩
  · intro h
    rw [loopStep_kaFired_iff] at h
    rw [loopStep_keepalivePlayedMs_eq, if_pos h]
    rfl
  · intro v hv hlt
    rw [loopStep_keepalivePlayedMs_eq] at hv
    by_cases hg : NTP2MS (e.now - s.lastKeepalive) ≥ 30000
    · rw [if_pos hg] at hv
      injection hv with hv
      rw [← hv]
      exact TS2MS_nonpos _ _ (by omega) (le_of_lt hr)
    · rw [if_neg hg] at hv
      exact absurd hv (by simp)
  · intro v hv hsh
    rw [loopStep_keepalivePlayedMs_eq] at hv
    by_cases hg : NTP2MS (e.now - s.lastKeepalive) ≥ 30000
    · rw [if_pos hg] at hv
      injection hv with hv
      rw [← hv]
      refine TS2MS_neg _ _ hr ?_
      have hrw : -(s.frames - p.latency) * 1000 = (p.latency - s.frames) * 1000 := by
        ring
      rw [hrw]
      exact hsh
    · rw [if_neg hg] at hv
      exact absurd hv (by simp)

/-- Witness for claim C10 at zero frames against a 44100-tick latency. -/
theorem claim10_keepalive_line_unguarded_witness :
    ((loopStep c10Params c10Env c10wState).2.keepaliveFired = true →
        ((loopStep c10Params c10Env c10wState).2.keepalivePlayedMs).isSome = true)
    ∧ (∀ v, (loopStep c10Params c10Env c10wState).2.keepalivePlayedMs = some v →
        c10wState.frames < c10Params.latency → v ≤ 0)
    ∧ (∀ v, (loopStep c10Params c10Env c10wState).2.keepalivePlayedMs = some v →
        c10Params.rate ≤ (c10Params.latency - c10wState.frames) * 1000 → v < 0) :=
  claim10_keepalive_line_unguarded c10Params c10Env c10wState (by decide)

end SimplePlayer
